import Mathlib

/-!
Verification development for the ListingEditor repository.

The repository consists of three Python files:
  - fetch_sp_api_token.py (top level): loads a .env file with a hand-written
    parser, resolves three credentials from the file or the process
    environment, issues an HTTPS POST with urllib (no timeout argument),
    parses the JSON body, extracts access_token, prints the pretty JSON to
    stderr and the token to stdout.
  - src/fetch_sp_api_token.py: the same flow implemented with requests and
    python-dotenv; the POST carries timeout=30 and raise_for_status is used,
    and transport errors are wrapped in a RuntimeError.
  - src/listing_editor.py: a sandbox caller that issues one GET request with
    the token and fixed query parameters, prints the status code and returns
    the parsed JSON body.

Python strings are modelled as lists of characters (PyStr).  Python dicts
are modelled as association lists with insert-or-overwrite semantics.  The
network is modelled by an HttpOutcome value standing for the result of the
single blocking HTTP exchange.  The json module functions loads and dumps
are modelled by an executable JSON parser and renderer over the fragment the
program manipulates: objects, arrays, strings with simple escapes, integer
numbers, booleans and null.  Fractional and exponent number literals, the
NaN and Infinity extensions, unicode escape sequences and the escaping of
characters above ASCII are outside the modelled fragment.
-/

abbrev PyStr := List Char

/-- Whitespace characters stripped by the Python str.strip method; exotic
unicode space characters beyond latin-1 are outside the modelled fragment. -/
def isPySpace (c : Char) : Bool :=
  c == ' ' || c == '\t' || c == '\n' || c == '\r' || c == '\x0b' || c == '\x0c' ||
  c == '\x1c' || c == '\x1d' || c == '\x1e' || c == '\x85' || c == '\u2028' || c == '\u2029'

/-- Model of the Python str.strip method: removes leading and trailing
whitespace. -/
def pyStrip (l : PyStr) : PyStr :=
  ((l.dropWhile isPySpace).reverse.dropWhile isPySpace).reverse

/-- Line break characters recognised by the Python str.splitlines method. -/
def isLineBreak (c : Char) : Bool :=
  c == '\n' || c == '\r' || c == '\x0b' || c == '\x0c' ||
  c == '\x1c' || c == '\x1d' || c == '\x1e' || c == '\x85' || c == '\u2028' || c == '\u2029'

/-- Worker for splitLines: accumulates the current line in reverse. -/
def splitLinesGo : List Char → List Char → List PyStr
  | [], acc => if acc.isEmpty then [] else [acc.reverse]
  | '\r' :: '\n' :: rest, acc => acc.reverse :: splitLinesGo rest []
  | c :: rest, acc =>
    if isLineBreak c then acc.reverse :: splitLinesGo rest []
    else splitLinesGo rest (c :: acc)

/-- Model of the Python str.splitlines method: a trailing line break does not
produce a final empty line. -/
def splitLines (l : PyStr) : List PyStr := splitLinesGo l []

/-- Model of the Python str.split method with maxsplit 1: splits at the first
occurrence of sep.  The source only calls it when sep is present. -/
def splitFirst (sep : Char) : List Char → List Char × List Char
  | [] => ([], [])
  | c :: rest =>
    if c == sep then ([], rest)
    else
      let p := splitFirst sep rest
      (c :: p.1, p.2)

/-- Loop body of load_env_file in fetch_sp_api_token.py: strip the line, skip
it when blank, when its first character is a hash, or when it has no equals
sign; otherwise split at the first equals sign and strip both sides. -/
def parseLine (line : PyStr) : Option (PyStr × PyStr) :=
  let stripped := pyStrip line
  if stripped.isEmpty then none
  else if stripped.head? = some '#' then none
  else if '=' ∈ stripped then
    some (pyStrip (splitFirst '=' stripped).1, pyStrip (splitFirst '=' stripped).2)
  else none

/-- Assignment to a Python dict key: an existing key keeps its position and
gets the new value, a new key is appended at the end. -/
def dictInsert (d : List (PyStr × PyStr)) (k v : PyStr) : List (PyStr × PyStr) :=
  if d.any (fun p => p.1 == k) then d.map (fun p => if p.1 == k then (k, v) else p)
  else d ++ [(k, v)]

/-- Model of load_env_file in fetch_sp_api_token.py.  The argument is the
text of the .env file when it exists; a missing file yields the empty dict. -/
def load_env_file : Option PyStr → List (PyStr × PyStr)
  | none => []
  | some text =>
    ((splitLines text).filterMap parseLine).foldl (fun d p => dictInsert d p.1 p.2) []

/-- Error taxonomy of the spec.  In the source, missingVariable is the
distinct class MissingEnvironmentVariableError; requestFailed and
invalidResponse are RuntimeError raised at distinct sites with distinct
messages; typeError models the uncaught TypeError CPython raises when a
non-dict value is subscripted with a string key. -/
inductive PyError where
  | missingVariable (msg : PyStr)
  | requestFailed (msg : PyStr)
  | invalidResponse (msg : PyStr)
  | typeError (msg : PyStr)
deriving DecidableEq

/-- Message of MissingEnvironmentVariableError; identical in both source
variants. -/
def missingVarMsg (name : PyStr) : PyStr :=
  ("Required variable \x27").data ++ name ++ ("\x27 is not defined in .env or the environment.").data

/-- Model of get_env_value in src/fetch_sp_api_token.py: look the name up in
the process environment only. -/
def get_env_value_src (name : PyStr) (environ : PyStr → Option PyStr) : Except PyError PyStr :=
  match environ name with
  | some v => Except.ok v
  | none => Except.error (PyError.missingVariable (missingVarMsg name))

/-- Model of get_env_value in fetch_sp_api_token.py: a non-empty value from
the .env dict wins, otherwise fall through to the process environment. -/
def get_env_value (name : PyStr) (envFileValues : List (PyStr × PyStr))
    (environ : PyStr → Option PyStr) : Except PyError PyStr :=
  match List.lookup name envFileValues with
  | some v => if v.isEmpty then get_env_value_src name environ else Except.ok v
  | none => get_env_value_src name environ

/-- JSON values produced by the json module on the modelled fragment. -/
inductive Json where
  | str : PyStr → Json
  | num : Int → Json
  | bool : Bool → Json
  | null : Json
  | obj : List (PyStr × Json) → Json
  | arr : List Json → Json

/-- JSON whitespace accepted between tokens by the json module. -/
def skipWs (cs : List Char) : List Char :=
  cs.dropWhile (fun c => c == ' ' || c == '\t' || c == '\n' || c == '\r')

/-- Backslash escapes accepted inside JSON string literals; the unicode
escape form is outside the modelled fragment. -/
def escChar : Char → Option Char
  | '"' => some '"'
  | '\\' => some '\\'
  | '/' => some '/'
  | 'b' => some '\x08'
  | 'f' => some '\x0c'
  | 'n' => some '\n'
  | 'r' => some '\r'
  | 't' => some '\t'
  | _ => none

/-- Parse the remainder of a JSON string literal after its opening quote;
raw control characters are rejected as in the strict mode of json.loads. -/
def parseJString : List Char → Option (PyStr × List Char)
  | [] => none
  | '"' :: rest => some ([], rest)
  | '\\' :: e :: rest =>
    match escChar e, parseJString rest with
    | some c, some (s, r) => some (c :: s, r)
    | _, _ => none
  | c :: rest =>
    if c.toNat < 32 then none
    else
      match parseJString rest with
      | some (s, r) => some (c :: s, r)
      | none => none

/-- Numeric value of a list of decimal digits. -/
def digitsToNat (ds : List Char) : Nat :=
  ds.foldl (fun acc c => acc * 10 + (c.toNat - 48)) 0

/-- Parse a JSON integer literal: an optional minus sign and digits without a
superfluous leading zero.  Fraction or exponent parts are outside the
modelled fragment and make the parse fail. -/
def parseNumber (cs : List Char) : Option (Json × List Char) :=
  let p := match cs with
    | '-' :: r => (true, r)
    | _ => (false, cs)
  match p.2 with
  | [] => none
  | c :: rest =>
    if ¬ c.isDigit then none
    else
      let ds := (c :: rest).takeWhile Char.isDigit
      let rest' := (c :: rest).dropWhile Char.isDigit
      if c == '0' ∧ ds.length > 1 then none
      else
        match rest' with
        | e :: _ =>
          if e == '.' || e == 'e' || e == 'E' then none
          else some (Json.num (if p.1 then -(digitsToNat ds : Int) else (digitsToNat ds : Int)), rest')
        | [] => some (Json.num (if p.1 then -(digitsToNat ds : Int) else (digitsToNat ds : Int)), rest')

/-- Remove every field with the given key. -/
def removeKey (k : PyStr) (fields : List (PyStr × Json)) : List (PyStr × Json) :=
  fields.filter (fun p => ¬ (p.1 == k))

/-- Combine the first member of a JSON object with the members that follow
it, with the duplicate-key behaviour of a Python dict literal: the key keeps
its first position and a later value wins. -/
def objCons (k : PyStr) (v : Json) (fields : List (PyStr × Json)) : List (PyStr × Json) :=
  match List.lookup k fields with
  | some v' => (k, v') :: removeKey k fields
  | none => (k, v) :: fields

/-- Fuel-indexed JSON value parser.  The members of an object and the items
of an array after a comma are parsed by re-entering the function on the rest
of the input with the opening bracket restored, which keeps the recursion
structural in the fuel.  A trailing comma is rejected as in json.loads. -/
def parseVal : Nat → List Char → Option (Json × List Char)
  | 0, _ => none
  | fuel + 1, cs =>
    match skipWs cs with
    | '{' :: rest =>
      (match skipWs rest with
       | '}' :: rest' => some (Json.obj [], rest')
       | '"' :: rest' =>
         (match parseJString rest' with
          | none => none
          | some (k, r1) =>
            match skipWs r1 with
            | ':' :: r2 =>
              (match parseVal fuel r2 with
               | none => none
               | some (v, r3) =>
                 match skipWs r3 with
                 | '}' :: r4 => some (Json.obj [(k, v)], r4)
                 | ',' :: r4 =>
                   (match skipWs r4 with
                    | '}' :: _ => none
                    | _ =>
                      match parseVal fuel ('{' :: r4) with
                      | some (Json.obj fields, r5) => some (Json.obj (objCons k v fields), r5)
                      | _ => none)
                 | _ => none)
            | _ => none)
       | _ => none)
    | '[' :: rest =>
      (match skipWs rest with
       | ']' :: rest' => some (Json.arr [], rest')
       | _ =>
         match parseVal fuel rest with
         | none => none
         | some (v, r1) =>
           match skipWs r1 with
           | ']' :: r2 => some (Json.arr [v], r2)
           | ',' :: r2 =>
             (match skipWs r2 with
              | ']' :: _ => none
              | _ =>
                match parseVal fuel ('[' :: r2) with
                | some (Json.arr items, r3) => some (Json.arr (v :: items), r3)
                | _ => none)
           | _ => none)
    | '"' :: rest =>
      (match parseJString rest with
       | some (s, r) => some (Json.str s, r)
       | none => none)
    | 't' :: 'r' :: 'u' :: 'e' :: rest => some (Json.bool true, rest)
    | 'f' :: 'a' :: 'l' :: 's' :: 'e' :: rest => some (Json.bool false, rest)
    | 'n' :: 'u' :: 'l' :: 'l' :: rest => some (Json.null, rest)
    | other => parseNumber other

/-- Model of json.loads on the modelled fragment: parse one value and require
only whitespace after it.  The fuel bound exceeds the recursion depth of any
parse of the input, so it never cuts a successful parse short. -/
def pyJsonLoads (s : PyStr) : Option Json :=
  match parseVal (2 * s.length + 4) s with
  | some (j, rest) => if (skipWs rest).isEmpty then some j else none
  | none => none

/-- Escaping of one character inside a rendered JSON string, as json.dumps
does for the ASCII range. -/
def escJson (c : Char) : PyStr :=
  if c == '"' then ['\\', '"']
  else if c == '\\' then ['\\', '\\']
  else if c == '\n' then ['\\', 'n']
  else if c == '\t' then ['\\', 't']
  else if c == '\r' then ['\\', 'r']
  else if c == '\x08' then ['\\', 'b']
  else if c == '\x0c' then ['\\', 'f']
  else if c.toNat < 32 then
    ['\\', 'u', '0', '0',
     Char.ofNat (if c.toNat / 16 < 10 then 48 + c.toNat / 16 else 87 + c.toNat / 16),
     Char.ofNat (if c.toNat % 16 < 10 then 48 + c.toNat % 16 else 87 + c.toNat % 16)]
  else [c]

/-- Render a JSON string literal with its quotes. -/
def quoteJson (s : PyStr) : PyStr := '"' :: (s.flatMap escJson) ++ ['"']

/-- Indentation produced by json.dumps with indent 2 at the given depth. -/
def indentOf (lvl : Nat) : PyStr := List.replicate (2 * lvl) ' '

/-- Join rendered pieces with a separator. -/
def joinSep (sep : PyStr) : List PyStr → PyStr
  | [] => []
  | [x] => x
  | x :: y :: rest => x ++ sep ++ joinSep sep (y :: rest)

/-- Fuel-indexed model of json.dumps with indent 2: one unit of fuel is spent
per nesting level, so any fuel above the nesting depth of the value renders
it in full. -/
def dumpsV : Nat → Nat → Json → PyStr
  | 0, _, _ => []
  | _ + 1, _, Json.str s => quoteJson s
  | _ + 1, _, Json.num n => (toString n).data
  | _ + 1, _, Json.bool b => (if b then "true" else "false").data
  | _ + 1, _, Json.null => ("null").data
  | _ + 1, _, Json.obj [] => ("\x7b\x7d").data
  | fuel + 1, lvl, Json.obj (f :: fs) =>
    ("\x7b\n").data ++
      joinSep ((",\n").data)
        ((f :: fs).map (fun p =>
          indentOf (lvl + 1) ++ quoteJson p.1 ++ (": ").data ++ dumpsV fuel (lvl + 1) p.2)) ++
      ("\n").data ++ indentOf lvl ++ ("\x7d").data
  | _ + 1, _, Json.arr [] => ("[]").data
  | fuel + 1, lvl, Json.arr (x :: xs) =>
    ("[\n").data ++
      joinSep ((",\n").data)
        ((x :: xs).map (fun v => indentOf (lvl + 1) ++ dumpsV fuel (lvl + 1) v)) ++
      ("\n").data ++ indentOf lvl ++ ("]").data

/-- Model of json.dumps with indent 2 under an explicit fuel bound.  Call
sites pass a bound derived from the length of the text the value was parsed
from, which always exceeds its nesting depth. -/
def pyJsonDumpsF (fuel : Nat) (j : Json) : PyStr := dumpsV fuel 0 j

/-- Result of the single blocking HTTP exchange with the token endpoint: a
transport-level failure carrying the exception text, or a final response
with its status code, reason phrase and body text. -/
inductive HttpOutcome where
  | networkError (msg : PyStr)
  | response (status : Nat) (reason : PyStr) (body : PyStr)

/-- Token endpoint URL, fixed in both source variants. -/
def TOKEN_ENDPOINT : PyStr := ("https://api.amazon.com/auth/o2/token").data

/-- Content type header value for the token request. -/
def FORM_CONTENT_TYPE : PyStr := ("application/x-www-form-urlencoded;charset=UTF-8").data

/-- Model of build_request_payload: the four fixed form fields. -/
def build_request_payload (clientId clientSecret refreshTok : PyStr) : List (PyStr × PyStr) :=
  [(("client_id").data, clientId),
   (("client_secret").data, clientSecret),
   (("grant_type").data, ("refresh_token").data),
   (("refresh_token").data, refreshTok)]

/-- Shape of an outgoing HTTP POST request; formData is the form payload
before percent-encoding, and timeout is the socket timeout in seconds when
one is set. -/
structure PostRequest where
  method : PyStr
  url : PyStr
  headers : List (PyStr × PyStr)
  formData : List (PyStr × PyStr)
  timeout : Option Nat
deriving DecidableEq

/-- Token request issued by src/fetch_sp_api_token.py: requests.post with
the content type header and timeout=30. -/
def tokenRequest (clientId clientSecret refreshTok : PyStr) : PostRequest :=
  { method := ("POST").data
    url := TOKEN_ENDPOINT
    headers := [(("Content-Type").data, FORM_CONTENT_TYPE)]
    formData := build_request_payload clientId clientSecret refreshTok
    timeout := some 30 }

/-- Token request issued by the top-level fetch_sp_api_token.py:
urllib request.urlopen with the same header and no timeout argument. -/
def tokenRequestUrllib (clientId clientSecret refreshTok : PyStr) : PostRequest :=
  { method := ("POST").data
    url := TOKEN_ENDPOINT
    headers := [(("Content-Type").data, FORM_CONTENT_TYPE)]
    formData := build_request_payload clientId clientSecret refreshTok
    timeout := none }

/-- Message of the requests HTTPError raised by raise_for_status, rebuilt
from the status code and reason phrase. -/
def httpErrorMsg (status : Nat) (reason : PyStr) : PyStr :=
  (toString status).data ++
    (if status < 500 then (" Client Error: ").data else (" Server Error: ").data) ++
    reason ++ (" for url: ").data ++ TOKEN_ENDPOINT

/-- Message carried by the TypeError CPython raises when a parsed JSON value
that is not a dict is subscripted with a string key; the exact CPython
wording varies with the value type and is approximated by one message. -/
def subscriptErrMsg : PyStr :=
  ("JSON value does not support a string subscript").data

/-- Response handling of fetch_access_token, common to both source variants:
parse the body with json.loads, subscript the result with access_token,
print the pretty JSON to stderr and return the token.  Success carries the
token value and the stderr text produced by the print call. -/
def handleTokenResponse (body : PyStr) : Except PyError (Json × PyStr) :=
  match pyJsonLoads body with
  | none =>
    Except.error (PyError.invalidResponse
      (("Amazon SP-API token endpoint returned non-JSON response: ").data ++ body))
  | some (Json.obj fields) =>
    match List.lookup (("access_token").data) fields with
    | some tok =>
      Except.ok (tok, pyJsonDumpsF (body.length + 2) (Json.obj fields) ++ ("\n").data)
    | none =>
      Except.error (PyError.invalidResponse
        (("Response JSON is missing the \x27access_token\x27 field.").data))
  | some _ => Except.error (PyError.typeError subscriptErrMsg)

/-- HTTP stage of fetch_access_token in src/fetch_sp_api_token.py: a
requests.RequestException is wrapped in a RuntimeError, raise_for_status
raises exactly for status codes from 400 to 599, and otherwise the response
body is handled. -/
def tokenHttp (outcome : HttpOutcome) : Except PyError (Json × PyStr) :=
  match outcome with
  | HttpOutcome.networkError msg =>
    Except.error (PyError.requestFailed (("Failed to fetch access token: ").data ++ msg))
  | HttpOutcome.response status reason body =>
    if 400 ≤ status ∧ status < 600 then
      Except.error (PyError.requestFailed
        (("Failed to fetch access token: ").data ++ httpErrorMsg status reason))
    else handleTokenResponse body

/-- Model of fetch_access_token in src/fetch_sp_api_token.py.  The process
environment after load_dotenv is the environ parameter; the request built
from the resolved credentials is tokenRequest, and the outcome of issuing it
is the outcome parameter. -/
def fetch_access_token (environ : PyStr → Option PyStr) (outcome : HttpOutcome) :
    Except PyError (Json × PyStr) := do
  let _clientId ← get_env_value_src (("SP_API_CLIENT_ID").data) environ
  let _clientSecret ← get_env_value_src (("SP_API_SECRET").data) environ
  let _refreshTok ← get_env_value_src (("SP_API_TOKEN").data) environ
  tokenHttp outcome

/-- Text the Python print call produces for the token value.  A string token
prints as itself; scalar values print with their Python spellings; composite
values are rendered with the JSON renderer as an approximation of the
CPython repr, a case no claim exercises. -/
def pyToStr : Json → PyStr
  | Json.str s => s
  | Json.num n => (toString n).data
  | Json.bool b => (if b then "True" else "False").data
  | Json.null => ("None").data
  | j => dumpsV 1000 0 j

/-- Message text carried by an error value. -/
def pyErrMsg : PyError → PyStr
  | PyError.missingVariable m => m
  | PyError.requestFailed m => m
  | PyError.invalidResponse m => m
  | PyError.typeError m => m

/-- Model of the main guard of fetch_sp_api_token.py, identical in both
variants: on success exit 0 with the token printed to stdout and the
diagnostic JSON already printed to stderr; a MissingEnvironmentVariableError
prints its message to stderr and exits 1; any other exception prints a
wrapped message to stderr and exits 1.  The result is the triple of exit
code, stdout text and stderr text. -/
def mainEntry (environ : PyStr → Option PyStr) (outcome : HttpOutcome) :
    Nat × PyStr × PyStr :=
  match fetch_access_token environ outcome with
  | Except.ok (tok, diag) => (0, pyToStr tok ++ ("\n").data, diag)
  | Except.error (PyError.missingVariable m) => (1, [], m ++ ("\n").data)
  | Except.error e =>
    (1, [], ("Failed to retrieve access token: ").data ++ pyErrMsg e ++ ("\n").data)

/-- Region table of src/listing_editor.py. -/
def sandbox_endpoints : List (PyStr × PyStr) :=
  [(("NA").data, ("sandbox.sellingpartnerapi-na.amazon.com").data),
   (("EU").data, ("sandbox.sellingpartnerapi-eu.amazon.com").data),
   (("FE").data, ("sandbox.sellingpartnerapi-fe.amazon.com").data)]

/-- Shape of the single outgoing GET request of the sandbox caller. -/
structure GetRequest where
  method : PyStr
  url : PyStr
  params : List (PyStr × PyStr)
  headers : List (PyStr × PyStr)
deriving DecidableEq

/-- Observable behaviour of one fetch_example call: the request it issues,
the text printed to stdout and stderr, and the value returned by
response.json, which is none when the body is not parseable JSON and the
call would raise. -/
structure FetchExampleResult where
  request : GetRequest
  stdoutOut : PyStr
  stderrOut : PyStr
  retval : Option Json

/-- Model of fetch_example in src/listing_editor.py: look up the NA host,
issue one GET with the fixed query parameters and headers, print the status
code with a bare print call, and return the parsed JSON body.  The status
and body of the response are parameters standing for the network; the
result is none when the endpoints dict lacks the NA key and the subscript
would raise. -/
def fetch_example (endpoints : List (PyStr × PyStr)) (token : PyStr)
    (status : Nat) (body : PyStr) : Option FetchExampleResult :=
  match List.lookup (("NA").data) endpoints with
  | none => none
  | some endpoint =>
    some
      { request :=
          { method := ("GET").data
            url := ("https://").data ++ endpoint ++ ("/orders/v0/orders").data
            params := [(("MarketplaceIds").data, ("ATVPDKIKX0DER").data),
                       (("CreatedAfter").data, ("TEST_CASE_200").data)]
            headers := [(("x-amz-access-token").data, token),
                        (("Content-Type").data, ("application/json").data),
                        (("User-Agent").data, ("My-Testing-App/1.0").data)] }
        stdoutOut := (toString status).data ++ ("\n").data
        stderrOut := []
        retval := pyJsonLoads body }

/-- Process environment defining every variable with the value x, used to
instantiate theorems at concrete inputs. -/
def envAll : PyStr → Option PyStr := fun _ => some (("x").data)

/-- Empty process environment, used to instantiate theorems at concrete
inputs. -/
def envNone : PyStr → Option PyStr := fun _ => none

/-! Helper lemmas. -/

/-- Once the three credentials resolve, fetch_access_token is the HTTP stage
applied to the outcome. -/
theorem fetch_env_ok (environ : PyStr → Option PyStr) (c1 c2 c3 : PyStr)
    (h1 : environ (("SP_API_CLIENT_ID").data) = some c1)
    (h2 : environ (("SP_API_SECRET").data) = some c2)
    (h3 : environ (("SP_API_TOKEN").data) = some c3)
    (outcome : HttpOutcome) :
    fetch_access_token environ outcome = tokenHttp outcome := by
  simp only [fetch_access_token, get_env_value_src, h1, h2, h3]
  rfl

/-! Claim C4. -/

/-- Claim C4: for every variable name, the config resolver returns the
config-file value when the file defines that key with a non-empty value,
even when the process environment also defines the key; when the file entry
is absent or empty it returns the process-environment value when one is
set. -/
theorem config_lookup_precedence (name v w : PyStr)
    (fileVals : List (PyStr × PyStr)) (environ : PyStr → Option PyStr) :
    (List.lookup name fileVals = some v → v ≠ [] →
      get_env_value name fileVals environ = Except.ok v) ∧
    ((List.lookup name fileVals = none ∨ List.lookup name fileVals = some []) →
      environ name = some w → get_env_value name fileVals environ = Except.ok w) := by
  constructor
  · intro h hv
    simp [get_env_value, h, List.isEmpty_iff, hv]
  · rintro (h | h) hw <;> simp [get_env_value, get_env_value_src, h, hw, List.isEmpty_iff]

/-- Claim C4 witness: concrete instances of both branches; the file value
wins over the environment when non-empty, and the environment value is
returned when the file entry is absent. -/
theorem config_lookup_precedence_witness :
    get_env_value (("A").data) [((("A").data), ("filev").data)]
        (fun _ => some (("envv").data)) = Except.ok (("filev").data) ∧
    get_env_value (("B").data) [((("A").data), ("filev").data)]
        (fun _ => some (("envv").data)) = Except.ok (("envv").data) :=
  ⟨(config_lookup_precedence (("A").data) (("filev").data) (("envv").data)
      [((("A").data), ("filev").data)] (fun _ => some (("envv").data))).1
      (by decide) (by decide),
   (config_lookup_precedence (("B").data) (("filev").data) (("envv").data)
      [((("A").data), ("filev").data)] (fun _ => some (("envv").data))).2
      (Or.inl (by decide)) rfl⟩

/-! Claim C6. -/

/-- Claim C6: a variable absent as a non-empty value from the config file
and unset in the process environment makes both config resolver variants
fail with a MissingEnvironmentVariableError whose message names that exact
variable, and no value is returned. -/
theorem missing_variable_error (name : PyStr) (fileVals : List (PyStr × PyStr))
    (environ : PyStr → Option PyStr)
    (hfile : List.lookup name fileVals = none ∨ List.lookup name fileVals = some [])
    (henv : environ name = none) :
    get_env_value name fileVals environ =
      Except.error (PyError.missingVariable
        ((("Required variable \x27").data) ++ name ++
          (("\x27 is not defined in .env or the environment.").data))) ∧
    get_env_value_src name environ =
      Except.error (PyError.missingVariable
        ((("Required variable \x27").data) ++ name ++
          (("\x27 is not defined in .env or the environment.").data))) := by
  rcases hfile with h | h <;>
    simp [get_env_value, get_env_value_src, missingVarMsg, h, henv, List.isEmpty_iff]

/-- Claim C6 witness: the resolver fails on SP_API_CLIENT_ID when the file
dict is empty and the environment is empty. -/
theorem missing_variable_error_witness :
    get_env_value (("SP_API_CLIENT_ID").data) [] envNone =
      Except.error (PyError.missingVariable
        ((("Required variable \x27").data) ++ ("SP_API_CLIENT_ID").data ++
          (("\x27 is not defined in .env or the environment.").data))) ∧
    get_env_value_src (("SP_API_CLIENT_ID").data) envNone =
      Except.error (PyError.missingVariable
        ((("Required variable \x27").data) ++ ("SP_API_CLIENT_ID").data ++
          (("\x27 is not defined in .env or the environment.").data))) :=
  missing_variable_error (("SP_API_CLIENT_ID").data) [] envNone (Or.inl rfl) rfl

/-! Claim C8. -/

/-- Claim C8 counterexample: at a concrete token, status and body, the
sandbox caller prints the status code to stdout and prints nothing to the
diagnostic stream, refuting the claim that the status code goes to a
diagnostic stream rather than the primary output channel. -/
theorem status_printed_to_stdout :
    (fetch_example sandbox_endpoints (("tok").data) 200 (("\x7b\x7d").data)).map
        (fun r => (r.stdoutOut, r.stderrOut)) =
      some ((("200\n").data), ([] : PyStr)) := rfl

/-- Claim C8 amended: the sandbox caller with the default region NA issues
exactly one GET request to the NA sandbox orders URL with the fixed query
parameters, the token header, the JSON content type and the fixed user
agent, prints the numeric status code to standard output, the primary
output channel, and returns the parsed JSON body. -/
theorem sandbox_request_shape (token : PyStr) (status : Nat) (body : PyStr) :
    fetch_example sandbox_endpoints token status body =
      some
        { request :=
            { method := ("GET").data
              url := ("https://sandbox.sellingpartnerapi-na.amazon.com/orders/v0/orders").data
              params := [(("MarketplaceIds").data, ("ATVPDKIKX0DER").data),
                         (("CreatedAfter").data, ("TEST_CASE_200").data)]
              headers := [(("x-amz-access-token").data, token),
                          (("Content-Type").data, ("application/json").data),
                          (("User-Agent").data, ("My-Testing-App/1.0").data)] }
          stdoutOut := (toString status).data ++ ("\n").data
          stderrOut := []
          retval := pyJsonLoads body } := rfl

/-! Claim C9. -/

/-- Claim C9 counterexample: the urllib variant issues its POST to the token
endpoint with the form content type header but with no timeout at all,
refuting the claim that every token POST is made with a bounded timeout of
about thirty seconds. -/
theorem urllib_post_has_no_timeout :
    (tokenRequestUrllib (("i").data) (("s").data) (("t").data)).method = ("POST").data ∧
    (tokenRequestUrllib (("i").data) (("s").data) (("t").data)).url = TOKEN_ENDPOINT ∧
    (tokenRequestUrllib (("i").data) (("s").data) (("t").data)).headers =
      [(("Content-Type").data, FORM_CONTENT_TYPE)] ∧
    (tokenRequestUrllib (("i").data) (("s").data) (("t").data)).timeout = none :=
  ⟨rfl, rfl, rfl, rfl⟩

/-- Claim C9 amended: every token POST carries the form content type header;
the requests-based variant sets a timeout of thirty seconds, while the
urllib-based variant sets no timeout and may block indefinitely. -/
theorem token_post_header_and_timeout (clientId clientSecret refreshTok : PyStr) :
    (tokenRequest clientId clientSecret refreshTok).headers =
      [(("Content-Type").data, FORM_CONTENT_TYPE)] ∧
    (tokenRequest clientId clientSecret refreshTok).timeout = some 30 ∧
    (tokenRequestUrllib clientId clientSecret refreshTok).headers =
      [(("Content-Type").data, FORM_CONTENT_TYPE)] ∧
    (tokenRequestUrllib clientId clientSecret refreshTok).timeout = none :=
  ⟨rfl, rfl, rfl, rfl⟩

/-! Claim C5. -/

/-- Characters of the stripped line are characters of the line. -/
theorem mem_of_mem_pyStrip {c : Char} {l : PyStr} (h : c ∈ pyStrip l) : c ∈ l := by
  unfold pyStrip at h
  rw [List.mem_reverse] at h
  replace h := (List.dropWhile_sublist isPySpace).subset h
  rw [List.mem_reverse] at h
  exact (List.dropWhile_sublist isPySpace).subset h

/-- Splitting at the first occurrence of a separator that is absent from the
part before it returns the two surrounding parts. -/
theorem splitFirst_not_mem (a b : List Char) (sep : Char) (h : sep ∉ a) :
    splitFirst sep (a ++ sep :: b) = (a, b) := by
  induction a with
  | nil => simp [splitFirst]
  | cons c t ih =>
    have hc : ¬ (c = sep) := fun he => h (he ▸ List.mem_cons_self c t)
    have ht : sep ∉ t := fun hm => h (List.mem_cons_of_mem _ hm)
    simp [splitFirst, hc, ih ht]

/-- Unfolded form of parseLine. -/
theorem parseLine_eq (line : PyStr) : parseLine line =
    (if (pyStrip line).isEmpty then none
     else if (pyStrip line).head? = some '#' then none
     else if '=' ∈ pyStrip line then
       some (pyStrip (splitFirst '=' (pyStrip line)).1,
             pyStrip (splitFirst '=' (pyStrip line)).2)
     else none) := rfl

/-- Claim C5: the env-file parser ignores blank lines, comment lines whose
first non-whitespace character is a hash, and lines with no equals sign;
every other line is split at its first equals sign into a key and a value,
both trimmed, so values may contain further equals characters; the example
input from the spec yields exactly the single FOO to bar mapping, and an
absent file yields the empty mapping. -/
theorem env_file_parse_rules :
    (∀ line : PyStr, pyStrip line = [] → parseLine line = none) ∧
    (∀ line : PyStr, (pyStrip line).head? = some '#' → parseLine line = none) ∧
    (∀ line : PyStr, '=' ∉ line → parseLine line = none) ∧
    (∀ (line a b : PyStr), pyStrip line = a ++ '=' :: b → '=' ∉ a →
      (pyStrip line).head? ≠ some '#' →
      parseLine line = some (pyStrip a, pyStrip b)) ∧
    load_env_file (some ((" # comment\n\nFOO = bar \n").data)) =
      [((("FOO").data), ("bar").data)] ∧
    load_env_file none = [] := by
  refine ⟨?_, ?_, ?_, ?_, by decide, rfl⟩
  · intro line h
    rw [parseLine_eq]
    simp [h]
  · intro line h
    have hne : (pyStrip line).isEmpty = false := by
      cases hps : pyStrip line with
      | nil => rw [hps] at h; simp at h
      | cons c cs => simp
    rw [parseLine_eq]
    simp [hne, h]
  · intro line h
    have hmem : '=' ∉ pyStrip line := fun hm => h (mem_of_mem_pyStrip hm)
    rw [parseLine_eq]
    simp [hmem]
  · intro line a b hsplit hna hhash
    have hmem : '=' ∈ pyStrip line := by
      rw [hsplit]
      exact List.mem_append_right a (List.mem_cons_self '=' b)
    have hne : (pyStrip line).isEmpty = false := by
      rw [hsplit]
      cases a <;> simp
    rw [parseLine_eq]
    rw [if_neg (by simp [hne]), if_neg hhash, if_pos hmem, hsplit,
        splitFirst_not_mem a b '=' hna]

/-- Claim C5 witness: a line with leading and trailing whitespace and an
equals sign inside the value parses to the trimmed key and trimmed value. -/
theorem env_file_parse_rules_witness :
    parseLine ((" FOO = b=ar ").data) = some ((("FOO").data), ("b=ar").data) := by
  have h := env_file_parse_rules.2.2.2.1 ((" FOO = b=ar ").data)
    (("FOO ").data) ((" b=ar").data) (by decide) (by decide) (by decide)
  exact h

/-! Claim C10. -/

/-- Unfolding of a lookup at a cons cell. -/
theorem lookup_cons_eqn (k a b : PyStr) (es : List (PyStr × PyStr)) :
    List.lookup k ((a, b) :: es) = if k == a then some b else List.lookup k es := by
  cases h : k == a <;> simp [List.lookup, h]

/-- Overwriting the value at key k does not change lookups at other keys. -/
theorem lookup_map_overwrite (d : List (PyStr × PyStr)) (k v k' : PyStr) (h : k' ≠ k) :
    List.lookup k' (d.map (fun p => if p.1 == k then (k, v) else p)) = List.lookup k' d := by
  induction d with
  | nil => rfl
  | cons a t ih =>
    rcases a with ⟨ak, av⟩
    rw [List.map_cons]
    by_cases h1 : ak = k
    · subst h1
      simp only [beq_self_eq_true, if_true]
      rw [lookup_cons_eqn, lookup_cons_eqn, if_neg (by simp [h]), if_neg (by simp [h]), ih]
    · simp only [beq_eq_false_iff_ne.mpr h1, Bool.false_eq_true, if_false]
      rw [lookup_cons_eqn, lookup_cons_eqn]
      by_cases h2 : k' = ak
      · rw [if_pos (by simp [h2]), if_pos (by simp [h2])]
      · rw [if_neg (by simp [h2]), if_neg (by simp [h2]), ih]

/-- Overwriting the value at a key present in the dict makes lookup at that
key return the new value. -/
theorem lookup_map_overwrite_self (d : List (PyStr × PyStr)) (k v : PyStr)
    (hany : d.any (fun p => p.1 == k) = true) :
    List.lookup k (d.map (fun p => if p.1 == k then (k, v) else p)) = some v := by
  induction d with
  | nil => simp at hany
  | cons a t ih =>
    rcases a with ⟨ak, av⟩
    rw [List.map_cons]
    by_cases h1 : ak = k
    · subst h1
      simp only [beq_self_eq_true, if_true]
      rw [lookup_cons_eqn, if_pos (by simp)]
    · simp only [beq_eq_false_iff_ne.mpr h1, Bool.false_eq_true, if_false]
      have hany' : t.any (fun p => p.1 == k) = true := by
        simpa [List.any_cons, beq_eq_false_iff_ne.mpr h1] using hany
      have hk : ¬ (k = ak) := fun he => h1 he.symm
      rw [lookup_cons_eqn, if_neg (by simp [hk]), ih hany']

/-- Appending a fresh binding at the end makes lookup return its value when
the key was absent. -/
theorem lookup_append_fresh (d : List (PyStr × PyStr)) (k v : PyStr)
    (hany : d.any (fun p => p.1 == k) = false) :
    List.lookup k (d ++ [(k, v)]) = some v := by
  induction d with
  | nil => simp [lookup_cons_eqn]
  | cons a t ih =>
    rcases a with ⟨ak, av⟩
    simp only [List.any_cons, Bool.or_eq_false_iff] at hany
    have h1 : ¬ (k = ak) := by
      intro he
      rw [beq_eq_false_iff_ne] at hany
      exact hany.1 he.symm
    rw [List.cons_append, lookup_cons_eqn, if_neg (by simp [h1])]
    exact ih hany.2

/-- Appending a binding for a different key does not change a lookup. -/
theorem lookup_append_other (d : List (PyStr × PyStr)) (k v k' : PyStr) (h : k' ≠ k) :
    List.lookup k' (d ++ [(k, v)]) = List.lookup k' d := by
  induction d with
  | nil =>
    rw [List.nil_append, lookup_cons_eqn, if_neg (by simp [h])]
  | cons a t ih =>
    rcases a with ⟨ak, av⟩
    rw [List.cons_append, lookup_cons_eqn, lookup_cons_eqn]
    by_cases h2 : k' = ak
    · rw [if_pos (by simp [h2]), if_pos (by simp [h2])]
    · rw [if_neg (by simp [h2]), if_neg (by simp [h2]), ih]

/-- Lookup after a Python dict assignment at the same key yields the new
value. -/
theorem lookup_dictInsert_self (d : List (PyStr × PyStr)) (k v : PyStr) :
    List.lookup k (dictInsert d k v) = some v := by
  unfold dictInsert
  cases hany : d.any (fun p => p.1 == k) with
  | true =>
    rw [if_pos rfl]
    exact lookup_map_overwrite_self d k v hany
  | false =>
    rw [if_neg (by simp)]
    exact lookup_append_fresh d k v hany

/-- Lookup after a Python dict assignment at a different key is unchanged. -/
theorem lookup_dictInsert_other (d : List (PyStr × PyStr)) (k v k' : PyStr) (h : k' ≠ k) :
    List.lookup k' (dictInsert d k v) = List.lookup k' d := by
  unfold dictInsert
  cases hany : d.any (fun p => p.1 == k) with
  | true =>
    rw [if_pos rfl]
    exact lookup_map_overwrite d k v k' h
  | false =>
    rw [if_neg (by simp)]
    exact lookup_append_other d k v k' h

/-- Folding Python dict assignments over a list of entries: a lookup returns
the value of the last entry with that key, and otherwise looks into the
starting dict. -/
theorem lookup_foldl_dictInsert (es : List (PyStr × PyStr)) (k : PyStr) :
    ∀ d, List.lookup k (es.foldl (fun acc p => dictInsert acc p.1 p.2) d) =
      (match es.reverse.find? (fun p => p.1 == k) with
       | some q => some q.2
       | none => List.lookup k d) := by
  induction es with
  | nil => intro d; simp
  | cons a t ih =>
    intro d
    rw [List.foldl_cons, ih (dictInsert d a.1 a.2), List.reverse_cons, List.find?_append]
    cases hfind : t.reverse.find? (fun p => p.1 == k) with
    | some q => simp [Option.orElse, hfind]
    | none =>
      rcases a with ⟨ak, av⟩
      by_cases hk : ak = k
      · subst hk
        simp [Option.orElse, hfind, List.find?, lookup_dictInsert_self]
      · have hk' : ¬ (k = ak) := fun he => hk he.symm
        simp [Option.orElse, hfind, List.find?, beq_eq_false_iff_ne.mpr hk,
              lookup_dictInsert_other d ak av k hk']

/-- Claim C10: when several lines of the config file define the same trimmed
key, load_env_file maps that key to the trimmed value of the last such line;
earlier assignments are overwritten.  The right hand side selects the last
parsed entry with the given key. -/
theorem duplicate_keys_last_wins (text k : PyStr) :
    List.lookup k (load_env_file (some text)) =
      ((((splitLines text).filterMap parseLine).reverse.find?
        (fun p => p.1 == k)).map Prod.snd) := by
  unfold load_env_file
  rw [lookup_foldl_dictInsert]
  cases hfind : ((splitLines text).filterMap parseLine).reverse.find? (fun p => p.1 == k) with
  | some q => simp [hfind]
  | none => simp [hfind, List.lookup]

/-! Claim C1. -/

/-- Claim C1: when the token endpoint responds without a transport failure
and with a status outside the range raise_for_status raises for, and the
body parses as a JSON object whose access_token field is a string, then
fetch_access_token returns exactly that string as its sole success value,
the full parsed JSON object is written pretty-printed to stderr, and the
entry point writes only the token to stdout while the diagnostic JSON goes
to stderr. -/
theorem token_success_returns_token_and_diag (environ : PyStr → Option PyStr)
    (c1 c2 c3 : PyStr)
    (h1 : environ (("SP_API_CLIENT_ID").data) = some c1)
    (h2 : environ (("SP_API_SECRET").data) = some c2)
    (h3 : environ (("SP_API_TOKEN").data) = some c3)
    (status : Nat) (reason body : PyStr) (fields : List (PyStr × Json)) (tok : PyStr)
    (hst : ¬ (400 ≤ status ∧ status < 600))
    (hp : pyJsonLoads body = some (Json.obj fields))
    (ht : List.lookup (("access_token").data) fields = some (Json.str tok)) :
    fetch_access_token environ (HttpOutcome.response status reason body) =
      Except.ok (Json.str tok,
        pyJsonDumpsF (body.length + 2) (Json.obj fields) ++ ("\n").data) ∧
    mainEntry environ (HttpOutcome.response status reason body) =
      (0, tok ++ ("\n").data,
       pyJsonDumpsF (body.length + 2) (Json.obj fields) ++ ("\n").data) := by
  have hfetch : fetch_access_token environ (HttpOutcome.response status reason body) =
      Except.ok (Json.str tok,
        pyJsonDumpsF (body.length + 2) (Json.obj fields) ++ ("\n").data) := by
    rw [fetch_env_ok environ c1 c2 c3 h1 h2 h3]
    simp [tokenHttp, hst, handleTokenResponse, hp, ht]
  exact ⟨hfetch, by simp [mainEntry, hfetch, pyToStr]⟩

/-- Claim C1 witness: the spec example body yields the token abc123, with
the pretty-printed object on stderr and the token alone on stdout. -/
theorem token_success_concrete :
    fetch_access_token envAll (HttpOutcome.response 200 (("OK").data)
        (("\x7b\"access_token\": \"abc123\", \"expires_in\": 3600\x7d").data)) =
      Except.ok (Json.str (("abc123").data),
        pyJsonDumpsF (((("\x7b\"access_token\": \"abc123\", \"expires_in\": 3600\x7d").data)).length + 2)
          (Json.obj [((("access_token").data), Json.str (("abc123").data)),
                     ((("expires_in").data), Json.num 3600)]) ++ ("\n").data) ∧
    mainEntry envAll (HttpOutcome.response 200 (("OK").data)
        (("\x7b\"access_token\": \"abc123\", \"expires_in\": 3600\x7d").data)) =
      (0, ("abc123").data ++ ("\n").data,
       pyJsonDumpsF (((("\x7b\"access_token\": \"abc123\", \"expires_in\": 3600\x7d").data)).length + 2)
          (Json.obj [((("access_token").data), Json.str (("abc123").data)),
                     ((("expires_in").data), Json.num 3600)]) ++ ("\n").data) :=
  token_success_returns_token_and_diag envAll (("x").data) (("x").data) (("x").data)
    rfl rfl rfl 200 (("OK").data)
    (("\x7b\"access_token\": \"abc123\", \"expires_in\": 3600\x7d").data)
    [((("access_token").data), Json.str (("abc123").data)),
     ((("expires_in").data), Json.num 3600)]
    (("abc123").data) (by decide) rfl rfl

/-! Claim C3. -/

/-- Claim C3 counterexample: with credentials present, a response with the
non-2xx status 304 whose body contains an access_token is not turned into a
RequestFailed error; fetch_access_token returns the token, because
raise_for_status only raises for status codes from 400 to 599. -/
theorem non2xx_status_can_return_token :
    ¬ (200 ≤ 304 ∧ 304 < 300) ∧
    fetch_access_token envAll (HttpOutcome.response 304 (("Not Modified").data)
        (("\x7b\"access_token\": \"abc\"\x7d").data)) =
      Except.ok (Json.str (("abc").data),
        pyJsonDumpsF (((("\x7b\"access_token\": \"abc\"\x7d").data)).length + 2)
          (Json.obj [((("access_token").data), Json.str (("abc").data))]) ++ ("\n").data) :=
  ⟨by decide, rfl⟩

/-- Claim C3 amended: with credentials present, a transport-level failure or
an HTTP status from 400 to 599 makes fetch_access_token fail with the
wrapped RequestFailed error and no token is returned; statuses outside the
2xx range but below 400, such as 304, are not treated as failures and the
body is processed normally. -/
theorem request_failures_wrapped_amended (environ : PyStr → Option PyStr)
    (c1 c2 c3 : PyStr)
    (h1 : environ (("SP_API_CLIENT_ID").data) = some c1)
    (h2 : environ (("SP_API_SECRET").data) = some c2)
    (h3 : environ (("SP_API_TOKEN").data) = some c3) :
    (∀ msg : PyStr, fetch_access_token environ (HttpOutcome.networkError msg) =
      Except.error (PyError.requestFailed ((("Failed to fetch access token: ").data) ++ msg))) ∧
    (∀ (status : Nat) (reason body : PyStr), 400 ≤ status → status < 600 →
      fetch_access_token environ (HttpOutcome.response status reason body) =
        Except.error (PyError.requestFailed
          ((("Failed to fetch access token: ").data) ++ httpErrorMsg status reason))) := by
  constructor
  · intro msg
    rw [fetch_env_ok environ c1 c2 c3 h1 h2 h3]
    rfl
  · intro status reason body hs1 hs2
    rw [fetch_env_ok environ c1 c2 c3 h1 h2 h3]
    simp [tokenHttp, hs1, hs2]

/-- Claim C3 amended witness: a connection error and a 500 response each
produce the wrapped RequestFailed error at concrete inputs. -/
theorem request_failures_wrapped_concrete :
    fetch_access_token envAll (HttpOutcome.networkError (("boom").data)) =
      Except.error (PyError.requestFailed
        ((("Failed to fetch access token: ").data) ++ ("boom").data)) ∧
    fetch_access_token envAll
        (HttpOutcome.response 500 (("Internal Server Error").data) (("oops").data)) =
      Except.error (PyError.requestFailed
        ((("Failed to fetch access token: ").data) ++
          httpErrorMsg 500 (("Internal Server Error").data))) :=
  ⟨(request_failures_wrapped_amended envAll (("x").data) (("x").data) (("x").data)
      rfl rfl rfl).1 (("boom").data),
   (request_failures_wrapped_amended envAll (("x").data) (("x").data) (("x").data)
      rfl rfl rfl).2 500 (("Internal Server Error").data) (("oops").data)
      (by decide) (by decide)⟩

/-! Claim C7. -/

/-- Claim C7: the entry point exits 0 on success with the token as the sole
stdout output and the diagnostic JSON on stderr; on any failure, a missing
variable like any other exception, it exits 1, prints a non-empty message to
stderr and writes nothing to stdout. -/
theorem main_exit_behavior (environ : PyStr → Option PyStr) (outcome : HttpOutcome) :
    (∀ (tok : Json) (diag : PyStr),
      fetch_access_token environ outcome = Except.ok (tok, diag) →
      mainEntry environ outcome = (0, pyToStr tok ++ ("\n").data, diag)) ∧
    (∀ e : PyError,
      fetch_access_token environ outcome = Except.error e →
      (mainEntry environ outcome).1 = 1 ∧
      (mainEntry environ outcome).2.1 = [] ∧
      (mainEntry environ outcome).2.2 ≠ []) := by
  constructor
  · intro tok diag h
    simp [mainEntry, h]
  · intro e h
    have hnl : ("\n").data = ['\n'] := rfl
    cases e <;> simp [mainEntry, h, pyErrMsg, hnl]

/-- Claim C7 witness: the success branch at the spec example body, and the
failure branch with an empty environment, where the missing variable message
reaches stderr, the exit code is 1 and stdout stays empty. -/
theorem main_exit_behavior_concrete :
    mainEntry envAll (HttpOutcome.response 200 (("OK").data)
        (("\x7b\"access_token\": \"abc123\"\x7d").data)) =
      (0, pyToStr (Json.str (("abc123").data)) ++ ("\n").data,
       pyJsonDumpsF (((("\x7b\"access_token\": \"abc123\"\x7d").data)).length + 2)
          (Json.obj [((("access_token").data), Json.str (("abc123").data))]) ++ ("\n").data) ∧
    ((mainEntry envNone (HttpOutcome.networkError (("down").data))).1 = 1 ∧
     (mainEntry envNone (HttpOutcome.networkError (("down").data))).2.1 = [] ∧
     (mainEntry envNone (HttpOutcome.networkError (("down").data))).2.2 ≠ []) :=
  ⟨(main_exit_behavior envAll (HttpOutcome.response 200 (("OK").data)
        (("\x7b\"access_token\": \"abc123\"\x7d").data))).1
      (Json.str (("abc123").data))
      (pyJsonDumpsF (((("\x7b\"access_token\": \"abc123\"\x7d").data)).length + 2)
          (Json.obj [((("access_token").data), Json.str (("abc123").data))]) ++ ("\n").data)
      rfl,
   (main_exit_behavior envNone (HttpOutcome.networkError (("down").data))).2
      (PyError.missingVariable (missingVarMsg (("SP_API_CLIENT_ID").data))) rfl⟩

/-! Claim C2. -/

/-- Claim C2 counterexample: the body consisting of an empty JSON array
parses as JSON and lacks an access_token field, yet fetch_access_token does
not fail with the InvalidResponse error naming the missing field: the
subscript on a non-dict value raises an uncaught TypeError instead, because
the source only catches KeyError around the subscript. -/
theorem nonobject_json_gives_type_error :
    pyJsonLoads (("[]").data) = some (Json.arr []) ∧
    fetch_access_token envAll (HttpOutcome.response 200 (("OK").data) (("[]").data)) =
      Except.error (PyError.typeError subscriptErrMsg) ∧
    ¬ ∃ m, fetch_access_token envAll (HttpOutcome.response 200 (("OK").data) (("[]").data)) =
      Except.error (PyError.invalidResponse m) := by
  refine ⟨rfl, rfl, ?_⟩
  rintro ⟨m, hm⟩
  have hres : fetch_access_token envAll
      (HttpOutcome.response 200 (("OK").data) (("[]").data)) =
      Except.error (PyError.typeError subscriptErrMsg) := rfl
  rw [hres] at hm
  simp at hm

/-- Claim C2 amended: with credentials present and a status that
raise_for_status accepts, fetch_access_token fails with an InvalidResponse
error exactly when the body is not parseable JSON, in which case the message
contains the raw body text, or when the body parses as a JSON object lacking
the access_token field, in which case the message names the missing field;
a body parsing to a non-object JSON value fails with a generic TypeError
instead, and a response containing access_token raises no such error. -/
theorem invalid_response_amended (environ : PyStr → Option PyStr)
    (c1 c2 c3 : PyStr)
    (h1 : environ (("SP_API_CLIENT_ID").data) = some c1)
    (h2 : environ (("SP_API_SECRET").data) = some c2)
    (h3 : environ (("SP_API_TOKEN").data) = some c3)
    (status : Nat) (reason body : PyStr)
    (hst : ¬ (400 ≤ status ∧ status < 600)) :
    ((∃ m, fetch_access_token environ (HttpOutcome.response status reason body) =
        Except.error (PyError.invalidResponse m)) ↔
      (pyJsonLoads body = none ∨
       ∃ fields, pyJsonLoads body = some (Json.obj fields) ∧
         List.lookup (("access_token").data) fields = none)) ∧
    (pyJsonLoads body = none →
      fetch_access_token environ (HttpOutcome.response status reason body) =
        Except.error (PyError.invalidResponse
          ((("Amazon SP-API token endpoint returned non-JSON response: ").data) ++ body))) ∧
    (∀ fields, pyJsonLoads body = some (Json.obj fields) →
      List.lookup (("access_token").data) fields = none →
      fetch_access_token environ (HttpOutcome.response status reason body) =
        Except.error (PyError.invalidResponse
          (("Response JSON is missing the \x27access_token\x27 field.").data))) := by
  have hfetch : fetch_access_token environ (HttpOutcome.response status reason body) =
      handleTokenResponse body := by
    rw [fetch_env_ok environ c1 c2 c3 h1 h2 h3]
    simp [tokenHttp, hst]
  refine ⟨⟨?_, ?_⟩, ?_, ?_⟩
  · rintro ⟨m, hm⟩
    rw [hfetch] at hm
    cases hload : pyJsonLoads body with
    | none => exact Or.inl rfl
    | some j =>
      cases j with
      | obj fields =>
        cases hl : List.lookup (("access_token").data) fields with
        | some tok =>
          have hres : handleTokenResponse body =
              Except.ok (tok, pyJsonDumpsF (body.length + 2) (Json.obj fields) ++ ("\n").data) := by
            simp [handleTokenResponse, hload, hl]
          rw [hres] at hm
          simp at hm
        | none => exact Or.inr ⟨fields, rfl, hl⟩
      | str s =>
        have hres : handleTokenResponse body = Except.error (PyError.typeError subscriptErrMsg) := by
          simp [handleTokenResponse, hload]
        rw [hres] at hm
        simp at hm
      | num n =>
        have hres : handleTokenResponse body = Except.error (PyError.typeError subscriptErrMsg) := by
          simp [handleTokenResponse, hload]
        rw [hres] at hm
        simp at hm
      | bool b =>
        have hres : handleTokenResponse body = Except.error (PyError.typeError subscriptErrMsg) := by
          simp [handleTokenResponse, hload]
        rw [hres] at hm
        simp at hm
      | null =>
        have hres : handleTokenResponse body = Except.error (PyError.typeError subscriptErrMsg) := by
          simp [handleTokenResponse, hload]
        rw [hres] at hm
        simp at hm
      | arr items =>
        have hres : handleTokenResponse body = Except.error (PyError.typeError subscriptErrMsg) := by
          simp [handleTokenResponse, hload]
        rw [hres] at hm
        simp at hm
  · rintro (hload | ⟨fields, hf, hl⟩)
    · exact ⟨(("Amazon SP-API token endpoint returned non-JSON response: ").data) ++ body,
        by rw [hfetch]; simp [handleTokenResponse, hload]⟩
    · exact ⟨(("Response JSON is missing the \x27access_token\x27 field.").data),
        by rw [hfetch]; simp [handleTokenResponse, hf, hl]⟩
  · intro hload
    rw [hfetch]
    simp [handleTokenResponse, hload]
  · intro fields hf hl
    rw [hfetch]
    simp [handleTokenResponse, hf, hl]

/-- Claim C2 amended witness: the spec examples; the body not json fails
with the InvalidResponse message containing the raw body, and a JSON object
without access_token fails with the message naming the missing field. -/
theorem invalid_response_amended_concrete :
    fetch_access_token envAll (HttpOutcome.response 200 (("OK").data) (("not json").data)) =
      Except.error (PyError.invalidResponse
        ((("Amazon SP-API token endpoint returned non-JSON response: ").data) ++
          ("not json").data)) ∧
    fetch_access_token envAll (HttpOutcome.response 200 (("OK").data)
        (("\x7b\"error\": \"invalid_grant\"\x7d").data)) =
      Except.error (PyError.invalidResponse
        (("Response JSON is missing the \x27access_token\x27 field.").data)) :=
  ⟨(invalid_response_amended envAll (("x").data) (("x").data) (("x").data)
      rfl rfl rfl 200 (("OK").data) (("not json").data) (by decide)).2.1 rfl,
   (invalid_response_amended envAll (("x").data) (("x").data) (("x").data)
      rfl rfl rfl 200 (("OK").data)
      (("\x7b\"error\": \"invalid_grant\"\x7d").data) (by decide)).2.2
      [((("error").data), Json.str (("invalid_grant").data))] rfl rfl⟩
